import Mathlib

/-!
Verification of the stock-advisor scoring and portfolio-construction
pipeline.  The JavaScript source is embedded shallowly: JS numbers are
modelled as rationals (`ℚ`), `Math.round x` as `⌊x + 1/2⌋`, objects as
structures, and the human-readable failure / warning message strings of
the source as structured tags carrying the same data (the interpolated
text is presentation only).
-/

namespace StockAdvisor

/-- JS `Math.round`: round half toward positive infinity. -/
def jsRound (x : ℚ) : ℤ := ⌊x + 1/2⌋

/-- `Math.round (x * 10) / 10`: round to one decimal, as used throughout. -/
def round1 (x : ℚ) : ℚ := (jsRound (x * 10) : ℚ) / 10

/-- Substring test on character lists (JS `String.prototype.includes`). -/
def charsStartWith : List Char → List Char → Bool
  | [], _ => true
  | _ :: _, [] => false
  | p :: ps, c :: cs => p == c && charsStartWith ps cs

/-- Auxiliary: does `pat` occur inside the list? -/
def charsHaveSub (pat : List Char) : List Char → Bool
  | [] => pat.isEmpty
  | c :: cs => charsStartWith pat (c :: cs) || charsHaveSub pat cs

/-- JS `s.includes pat`. -/
def strIncludes (s pat : String) : Bool := charsHaveSub pat.data s.data

/-! ## Sector configuration (sectorConfig.js) -/

/-- `SECTOR_CONFIG.roceThresholds` from sectorConfig.js. -/
def roceThresholds : List (String × ℚ) :=
  [("Non Banking Financial Company (NBFC)", 8),
   ("Financial Institution", 8),
   ("Stockbroking & Allied", 10),
   ("Investment Company", 6),
   ("Other Financial Services", 10),
   ("Power Generation", 10),
   ("LPG/CNG/PNG/LNG Supplier", 12),
   ("Civil Construction", 12),
   ("Residential, Commercial Projects", 12),
   ("Construction Vehicles", 15),
   ("Heavy Electrical Equipment", 15),
   ("Other Electrical Equipment", 18),
   ("Computers - Software & Consulting", 20),
   ("IT Enabled Services", 18),
   ("Software Products", 20),
   ("Pharmaceuticals", 15),
   ("Auto Components & Equipments", 15),
   ("Diversified FMCG", 25),
   ("Personal Care", 30)]

/-- `getROCEThreshold industry` with fallback to the default 15. -/
def getROCEThreshold (industry : String) : ℚ :=
  match roceThresholds.lookup industry with
  | some t => t
  | none => 15

/-- `SECTOR_CONFIG.cyclicality.high`. -/
def cyclicalityHigh : List String :=
  ["Construction Vehicles", "Civil Construction", "Residential, Commercial Projects",
   "Iron & Steel Products", "Industrial Minerals", "Ferro & Silica Manganese",
   "Auto Components & Equipments", "Passenger Cars & Utility Vehicles"]

/-- `SECTOR_CONFIG.cyclicality.low`. -/
def cyclicalityLow : List String :=
  ["Pharmaceuticals", "Diversified FMCG", "Personal Care", "IT Enabled Services",
   "Computers - Software & Consulting", "Software Products", "Hospital",
   "Media & Entertainment", "LPG/CNG/PNG/LNG Supplier"]

/-- `getCyclicality industry`: high / low membership, default medium. -/
def getCyclicality (industry : String) : String :=
  if cyclicalityHigh.contains industry then "high"
  else if cyclicalityLow.contains industry then "low"
  else "medium"

/-- `SECTOR_CONFIG.sectorGroups`, in source order. -/
def sectorGroups : List (String × List String) :=
  [("Financials",
    ["Non Banking Financial Company (NBFC)", "Financial Institution",
     "Stockbroking & Allied", "Investment Company", "Other Financial Services",
     "Depositories, Clearing Houses and Other Intermediaries", "Exchange and Data Platform"]),
   ("Technology",
    ["IT Enabled Services", "Computers - Software & Consulting", "Software Products",
     "Computers Hardware & Equipments", "E-Learning"]),
   ("Healthcare",
    ["Pharmaceuticals", "Hospital", "Healthcare Service Provider"]),
   ("Industrial",
    ["Heavy Electrical Equipment", "Other Electrical Equipment", "Industrial Products",
     "Compressors, Pumps & Diesel Engines", "Plastic Products - Industrial",
     "Packaging", "Rubber"]),
   ("Infrastructure",
    ["Civil Construction", "Residential, Commercial Projects", "Construction Vehicles",
     "Telecom - Infrastructure", "Power Generation"]),
   ("Consumer",
    ["Diversified FMCG", "Personal Care", "Media & Entertainment",
     "Internet & Catalogue Retail", "Edible Oil"]),
   ("Auto",
    ["Auto Components & Equipments", "Passenger Cars & Utility Vehicles"]),
   ("Materials",
    ["Industrial Minerals", "Iron & Steel Products", "Ferro & Silica Manganese",
     "Petrochemicals", "Specialty Chemicals"])]

/-- `getSectorGroup industry`: first group containing the industry, else Other. -/
def getSectorGroup (industry : String) : String :=
  match sectorGroups.find? (fun g => g.2.contains industry) with
  | some g => g.1
  | none => "Other"

/-! ## Raw stock records (input to the quality gate)

The CSV loader defaults every numeric field to 0 when absent, so the
record carries total rational fields.  Field names follow the JS
bracket-access keys. -/

/-- A raw stock record as consumed by `checkQualityGates`. -/
structure Stock where
  name : String := ""
  nseCode : String := ""
  bseCode : String := ""
  industry : String := "default"
  roce : ℚ := 0
  avgRoce3y : ℚ := 0
  promoterHolding : ℚ := 0
  promoterChange : ℚ := 0
  marketCap : ℚ := 0
  avgVolume1m : ℚ := 0
  bSchklist : ℚ := 0
  canslim : ℚ := 0
  masterScore : ℚ := 0
  cashFlow : ℚ := 0
  salesGrowth : ℚ := 0
  debtgeni : ℚ := 0
  currentPrice : ℚ := 0
  return1w : ℚ := 0
  return1m : ℚ := 0
  return3m : ℚ := 0
deriving Repr, DecidableEq

/-! ## Quality gates (qualityGates.js) -/

/-- One entry of the `profitabilityChecks` array. -/
structure ProfitCheck where
  name : String
  passed : Bool
  value : ℚ
  threshold : ℚ
deriving Repr, DecidableEq

/-- Structured counterpart of the interpolated failure strings. -/
inductive GateIssue where
  | profitability (passedCount : ℕ)
  | lowPromoterHolding (holding : ℚ)
  | lowMarketCap (cap : ℚ)
deriving Repr, DecidableEq

/-- Structured counterpart of the interpolated warning strings. -/
inductive GateWarning where
  | promoterReducing (change : ℚ)
  | lowLiquidity (volume : ℚ)
  | lowQualityScores (b c m : ℚ)
  | negativeCashFlow
  | debtConcerns (score : ℚ)
deriving Repr, DecidableEq

/-- The object returned by `checkQualityGates`. -/
structure GateResult where
  passed : Bool
  failures : List GateIssue
  warnings : List GateWarning
  profitabilityDetails : List ProfitCheck
deriving Repr, DecidableEq

/-- `checkQualityGates stock` from qualityGates.js, translated clause by
clause; failure/warning strings become tags carrying the same data. -/
def checkQualityGates (stock : Stock) : GateResult :=
  let industry := if stock.industry = "" then "default" else stock.industry
  let roceThreshold := getROCEThreshold industry
  let profitabilityChecks : List ProfitCheck :=
    [{ name := "Current ROCE",
       passed := stock.roce ≥ roceThreshold,
       value := stock.roce, threshold := roceThreshold },
     { name := "3Y Avg ROCE",
       passed := stock.avgRoce3y ≥ roceThreshold * (8/10),
       value := stock.avgRoce3y, threshold := roceThreshold * (8/10) },
     { name := "ROCE Improving",
       passed := stock.roce ≥ stock.avgRoce3y,
       value := stock.roce, threshold := stock.avgRoce3y }]
  let profitCount := (profitabilityChecks.filter (·.passed)).length
  let failures₁ : List GateIssue :=
    if profitCount ≥ 2 then [] else [.profitability profitCount]
  let failures₂ : List GateIssue :=
    if stock.promoterHolding > 0 ∧ stock.promoterHolding < 26 then
      [.lowPromoterHolding stock.promoterHolding] else []
  let warnings₁ : List GateWarning :=
    if stock.promoterChange < -2 then [.promoterReducing stock.promoterChange] else []
  let failures₃ : List GateIssue :=
    if stock.marketCap < 300 then [.lowMarketCap stock.marketCap] else []
  let warnings₂ : List GateWarning :=
    if stock.avgVolume1m < 5000 then [.lowLiquidity stock.avgVolume1m] else []
  let qualityScoresPassed : ℕ :=
    (if stock.bSchklist ≥ 5 then 1 else 0) + (if stock.canslim ≥ 1 then 1 else 0) +
      (if stock.masterScore ≥ 6 then 1 else 0)
  let warnings₃ : List GateWarning :=
    if qualityScoresPassed < 1 then
      [.lowQualityScores stock.bSchklist stock.canslim stock.masterScore] else []
  let warnings₄ : List GateWarning :=
    if stock.cashFlow < 0 ∧ stock.salesGrowth < 20 ∧ getCyclicality industry ≠ "high" then
      [.negativeCashFlow] else []
  let isFinancial := strIncludes industry "NBFC" || strIncludes industry "Financial" ||
    strIncludes industry "Stockbroking"
  let warnings₅ : List GateWarning :=
    if ¬ isFinancial ∧ stock.debtgeni < 1 then [.debtConcerns stock.debtgeni] else []
  let failures := failures₁ ++ failures₂ ++ failures₃
  let warnings := warnings₁ ++ warnings₂ ++ warnings₃ ++ warnings₄ ++ warnings₅
  { passed := failures.isEmpty
    failures := failures
    warnings := warnings
    profitabilityDetails := profitabilityChecks }

/-- Number of profitability checks passed, as reported in the gate detail. -/
def profitabilityPassCount (stock : Stock) : ℕ :=
  ((checkQualityGates stock).profitabilityDetails.filter (·.passed)).length

/-- The ROCE threshold the gate applies to a stock (industry defaulted
exactly as in `checkQualityGates`). -/
def gateRoceThreshold (stock : Stock) : ℚ :=
  getROCEThreshold (if stock.industry = "" then "default" else stock.industry)

/-! ## Market condition and dynamic weights (scoring index) -/

/-- `detectMarketCondition allStocks`: average 3-month return and the
positive ratio classify the regime. -/
def detectMarketCondition (allStocks : List Stock) : String :=
  let returns := allStocks.map (·.return3m)
  if returns.length = 0 then "NEUTRAL"
  else
    let avgReturn := returns.sum / returns.length
    let positiveCount := (returns.filter (fun r => r > 0)).length
    let positiveRatio := (positiveCount : ℚ) / returns.length
    if avgReturn > 10 ∧ positiveRatio > 7/10 then "BULLISH"
    else if avgReturn < -10 ∧ positiveRatio < 3/10 then "BEARISH"
    else "NEUTRAL"

/-- Average 3-month return over the universe (the detector's `avgReturn`). -/
def avg3m (allStocks : List Stock) : ℚ :=
  (allStocks.map (·.return3m)).sum / (allStocks.length : ℚ)

/-- Fraction of stocks with strictly positive 3-month return. -/
def posRatio3m (allStocks : List Stock) : ℚ :=
  (((allStocks.map (·.return3m)).filter (fun r => r > 0)).length : ℚ) /
    (allStocks.length : ℚ)

/-- Number of stocks with strictly positive 3-month return. -/
def posCount3m (allStocks : List Stock) : ℕ :=
  ((allStocks.map (·.return3m)).filter (fun r => r > 0)).length

/-- The five dynamic layer weights per market regime. -/
structure LayerWeights where
  safety : ℚ
  fundamental : ℚ
  valuation : ℚ
  momentum : ℚ
  external : ℚ
deriving Repr, DecidableEq

/-- `getDynamicWeights marketCondition`: the fixed per-regime table. -/
def getDynamicWeights (marketCondition : String) : LayerWeights :=
  if marketCondition = "BEARISH" then
    { safety := 40/100, fundamental := 25/100, valuation := 25/100,
      momentum := 5/100, external := 5/100 }
  else if marketCondition = "BULLISH" then
    { safety := 20/100, fundamental := 30/100, valuation := 20/100,
      momentum := 20/100, external := 10/100 }
  else
    { safety := 30/100, fundamental := 25/100, valuation := 20/100,
      momentum := 15/100, external := 10/100 }

/-- Sum of the five layer weights. -/
def LayerWeights.total (w : LayerWeights) : ℚ :=
  w.safety + w.fundamental + w.valuation + w.momentum + w.external

/-! ## Composite scoring (calculateStockScore)

The five layer scorers live in separate modules; their internals are
irrelevant to the claims settled here, so `calculateStockScore` takes
them as function arguments and the theorems quantify over them: the
gate-failure early return holds for every choice of layer scorers. -/

/-- The object each layer scorer returns (only `score` and, for the risk
layer, `riskLevel` are consumed downstream). -/
structure LayerResult where
  score : ℚ := 0
  riskLevel : String := ""
deriving Repr, DecidableEq

/-- The five layer results attached to a scored stock. -/
structure StockScores where
  risk : LayerResult := {}
  fundamental : LayerResult := {}
  valuation : LayerResult := {}
  momentum : LayerResult := {}
  external : LayerResult := {}
deriving Repr, DecidableEq

/-- `getRecommendation compositeScore safetyScore` from the scoring index. -/
def getRecommendation (compositeScore safetyScore : ℚ) : String :=
  if compositeScore ≥ 70 ∧ safetyScore ≥ 60 then "STRONG BUY"
  else if compositeScore ≥ 60 ∧ safetyScore ≥ 50 then "BUY"
  else if compositeScore ≥ 50 then "ACCUMULATE"
  else if compositeScore ≥ 40 then "HOLD"
  else "WATCH"

/-- Result of `calculateStockScore`; on gate failure `scores` is `none`
(JS `null`) and only the identity fields are populated. -/
structure ScoredResult where
  name : String := ""
  nseCode : String := ""
  bseCode : String := ""
  industry : String := ""
  currentPrice : ℚ := 0
  marketCap : ℚ := 0
  passed : Bool := false
  gateResult : GateResult
  scores : Option StockScores := none
  return1w : ℚ := 0
  return1m : ℚ := 0
  return3m : ℚ := 0
  marketCondition : String := ""
  compositeScore : ℚ := 0
  recommendation : String := ""
deriving Repr, DecidableEq

/-- `calculateStockScore stock allStocks marketCondition`, with the five
layer scorers abstracted as arguments (`externalScorer` also reads the
whole universe, as in the source). -/
def calculateStockScore
    (riskScorer fundamentalScorer valuationScorer momentumScorer : Stock → LayerResult)
    (externalScorer : Stock → List Stock → LayerResult)
    (stock : Stock) (allStocks : List Stock) (marketCondition : Option String) :
    ScoredResult :=
  let gateResult := checkQualityGates stock
  if gateResult.passed = false then
    { name := stock.name, nseCode := stock.nseCode, industry := stock.industry,
      passed := false, gateResult := gateResult, scores := none,
      compositeScore := 0, recommendation := "EXCLUDED" }
  else
    let riskScore := riskScorer stock
    let fundamentalScore := fundamentalScorer stock
    let valuationScore := valuationScorer stock
    let momentumScore := momentumScorer stock
    let externalScore := externalScorer stock allStocks
    let condition := match marketCondition with
      | some c => c
      | none => detectMarketCondition allStocks
    let weights := getDynamicWeights condition
    let compositeScore :=
      weights.safety * riskScore.score +
      weights.fundamental * fundamentalScore.score +
      weights.valuation * valuationScore.score +
      weights.momentum * momentumScore.score +
      weights.external * externalScore.score
    let recommendation := getRecommendation compositeScore riskScore.score
    { name := stock.name, nseCode := stock.nseCode, bseCode := stock.bseCode,
      industry := stock.industry, currentPrice := stock.currentPrice,
      marketCap := stock.marketCap, passed := true, gateResult := gateResult,
      scores := some { risk := riskScore, fundamental := fundamentalScore,
                       valuation := valuationScore, momentum := momentumScore,
                       external := externalScore },
      return1w := stock.return1w, return1m := stock.return1m, return3m := stock.return3m,
      marketCondition := condition,
      compositeScore := (jsRound compositeScore : ℚ),
      recommendation := recommendation }

/-! ## Position sizing (positionSizing.js) -/

/-- The `config` object with its defaults. -/
structure Config where
  maxSingleStock : ℚ := 12
  maxTop5 : ℚ := 50
  maxPerSector : ℚ := 25
  minStockWeight : ℚ := 2
  targetEquityAllocation : ℚ := 90
deriving Repr, DecidableEq

/-- Nested `scores` object of a scored stock as read by position sizing. -/
structure SScores where
  risk : LayerResult := {}
  fundamental : LayerResult := {}
  valuation : LayerResult := {}
  momentum : LayerResult := {}
  external : LayerResult := {}
deriving Repr, DecidableEq

/-- A scored stock as consumed by `calculatePortfolioWeights`. -/
structure ScoredStock where
  name : String := ""
  nseCode : String := ""
  bseCode : String := ""
  industry : String := ""
  currentPrice : ℚ := 0
  marketCap : ℚ := 0
  passed : Bool := false
  compositeScore : ℚ := 0
  recommendation : String := ""
  scores : SScores := {}
  return1w : ℚ := 0
  return1m : ℚ := 0
  return3m : ℚ := 0
deriving Repr, DecidableEq

/-- Working copy of a stock inside the engine: the shallow copy `{...s}`
plus the fields the algorithm writes as it proceeds. -/
structure WStock extends ScoredStock where
  conviction : ℚ := 0
  rawWeight : ℚ := 0
  cappedWeight : ℚ := 0
  sectorGroup : String := ""
  excluded : Bool := false
  weight : ℚ := 0
deriving Repr, DecidableEq

/-- The shallow copy `{ ...s }` taken at the start of the engine. -/
def mkW (s : ScoredStock) : WStock := { toScoredStock := s }

/-- Stable insertion of `x` into a list sorted descending by `key`;
equal keys keep the earlier element first. -/
def insertDescBy (key : α → ℚ) : List α → α → List α
  | [], x => [x]
  | y :: ys, x => if key x > key y then x :: y :: ys else y :: insertDescBy key ys x

/-- Stable sort descending by `key` (JS `sort((a,b) => key b - key a)`,
which the JS spec requires to be stable). -/
def sortDescBy (key : α → ℚ) (l : List α) : List α := l.foldl (insertDescBy key) []

/-- Sum of capped weights of the members of one sector group. -/
def sectorTotal (stocks : List WStock) (g : String) : ℚ :=
  ((stocks.filter (fun s => s.sectorGroup == g)).map (·.cappedWeight)).sum

/-- `sectorOverflow` flag of one pass: some sector total exceeds the cap
(every sector key of the JS totals map has at least one member stock). -/
def sectorOverflowExists (config : Config) (stocks : List WStock) : Bool :=
  stocks.any (fun s => sectorTotal stocks s.sectorGroup > config.maxPerSector)

/-- One pass of the sector-cap loop.  The JS pass precomputes all sector
totals, then scales each overflowing sector's members by cap / total;
since each stock belongs to exactly one sector and the totals are read
before any scaling, the sequential per-sector scaling equals this
simultaneous map. -/
def sectorPass (config : Config) (stocks : List WStock) : List WStock :=
  stocks.map (fun s =>
    let t := sectorTotal stocks s.sectorGroup
    if t > config.maxPerSector then
      { s with cappedWeight := s.cappedWeight * (config.maxPerSector / t) }
    else s)

/-- The bounded sector-cap loop (`while iterations < maxIterations`),
returning the rebalanced stocks together with the number of iterations
executed, exactly as the JS `iterations` counter counts them. -/
def sectorLoop (config : Config) : ℕ → List WStock → List WStock × ℕ
  | 0, stocks => (stocks, 0)
  | n + 1, stocks =>
    if sectorOverflowExists config stocks then
      let r := sectorLoop config n (sectorPass config stocks)
      (r.1, r.2 + 1)
    else (stocks, 1)

/-- Flattened `scores` sub-object of a final output stock. -/
structure FinalScores where
  risk : ℚ
  fundamental : ℚ
  valuation : ℚ
  momentum : ℚ
  external : ℚ
deriving Repr, DecidableEq

/-- One stock of the final allocation (`finalStocks` element). -/
structure FinalStock where
  name : String
  nseCode : String
  bseCode : String
  industry : String
  sectorGroup : String
  currentPrice : ℚ
  marketCap : ℚ
  weight : ℚ
  compositeScore : ℚ
  recommendation : String
  scores : FinalScores
  return1w : ℚ
  return1m : ℚ
  return3m : ℚ
  riskLevel : String
  conviction : ℤ
deriving Repr, DecidableEq

/-- The `finalStocks` projection of a working stock. -/
def mkFinal (s : WStock) : FinalStock :=
  { name := s.name, nseCode := s.nseCode, bseCode := s.bseCode,
    industry := s.industry, sectorGroup := s.sectorGroup,
    currentPrice := s.currentPrice, marketCap := s.marketCap,
    weight := s.weight, compositeScore := s.compositeScore,
    recommendation := s.recommendation,
    scores := { risk := s.scores.risk.score, fundamental := s.scores.fundamental.score,
                valuation := s.scores.valuation.score, momentum := s.scores.momentum.score,
                external := s.scores.external.score },
    return1w := s.return1w, return1m := s.return1m, return3m := s.return3m,
    riskLevel := s.scores.risk.riskLevel, conviction := jsRound s.conviction }

/-- One entry of the sector allocation summary. -/
structure SectorAlloc where
  sector : String
  weight : ℚ
deriving Repr, DecidableEq

/-- `calculateSectorAllocation stocks`: weight sums grouped by sector in
first-occurrence order, each rounded to one decimal, sorted descending. -/
def calculateSectorAllocation (stocks : List FinalStock) : List SectorAlloc :=
  let keys : List String := stocks.foldl
    (fun acc s => if acc.contains s.sectorGroup then acc else acc ++ [s.sectorGroup]) []
  let entries := keys.map (fun k =>
    { sector := k,
      weight := round1 (((stocks.filter (fun s => s.sectorGroup == k)).map (·.weight)).sum)
      : SectorAlloc })
  sortDescBy (·.weight) entries

/-- The object `calculatePortfolioWeights` returns.  The degenerate early
return carries no `excludedCount` field in JS, hence the `Option`. -/
structure Allocation where
  stocks : List FinalStock
  totalWeight : ℚ
  cashAllocation : ℚ
  sectorAllocation : List SectorAlloc
  excludedCount : Option ℕ
deriving Repr, DecidableEq

set_option maxHeartbeats 1000000 in
/-- `calculatePortfolioWeights scoredStocks config`, step by step as in
positionSizing.js. -/
def calculatePortfolioWeights (scoredStocks : List ScoredStock) (config : Config) :
    Allocation :=
  let eligibleStocks : List WStock :=
    (((scoredStocks.filter (fun s => s.passed && decide (s.compositeScore ≥ 45))).take 20).map mkW)
  if eligibleStocks.isEmpty then
    { stocks := [], totalWeight := 0, cashAllocation := 100,
      sectorAllocation := [], excludedCount := none }
  else
    let withConviction := eligibleStocks.map (fun s =>
      let safetyMultiplier := max (1/2) (s.scores.risk.score / 100)
      { s with conviction := s.compositeScore * safetyMultiplier })
    let totalConviction := (withConviction.map (·.conviction)).sum
    let withRaw := withConviction.map (fun s =>
      { s with rawWeight := (s.conviction / totalConviction) * config.targetEquityAllocation })
    let withCap := withRaw.map (fun s =>
      let safetyScore := s.scores.risk.score
      let maxWeight : ℚ :=
        if safetyScore ≥ 75 then config.maxSingleStock
        else if safetyScore ≥ 65 then 10
        else if safetyScore ≥ 55 then 8
        else 5
      { s with cappedWeight := min s.rawWeight maxWeight })
    let withSector := withCap.map (fun s => { s with sectorGroup := getSectorGroup s.industry })
    let afterSectorLoop := (sectorLoop config 10 withSector).1
    let sorted := sortDescBy (·.cappedWeight) afterSectorLoop
    let top5Total := ((sorted.take 5).map (·.cappedWeight)).sum
    let afterTop5 :=
      if top5Total > config.maxTop5 then
        (sorted.take 5).map (fun s =>
          { s with cappedWeight := s.cappedWeight * (config.maxTop5 / top5Total) })
          ++ sorted.drop 5
      else sorted
    let marked := afterTop5.map (fun s =>
      if s.cappedWeight < config.minStockWeight then { s with excluded := true } else s)
    let includedStocks := marked.filter (fun s => !s.excluded)
    let rawTotal := (includedStocks.map (·.cappedWeight)).sum
    let normalizer := if rawTotal > 0 then config.targetEquityAllocation / rawTotal else 1
    let weighted := includedStocks.map (fun s =>
      { s with weight := round1 (s.cappedWeight * normalizer) })
    let currentTotal := (weighted.map (·.weight)).sum
    let diff := config.targetEquityAllocation - currentTotal
    let adjusted :=
      match weighted with
      | [] => ([] : List WStock)
      | s :: rest =>
        if |diff| ≥ 1/10 then { s with weight := round1 (s.weight + diff) } :: rest
        else s :: rest
    let finalTotal := (adjusted.map (·.weight)).sum
    let cashAllocation := round1 (100 - finalTotal)
    let finalStocks := sortDescBy (·.weight) (adjusted.map mkFinal)
    { stocks := finalStocks,
      totalWeight := round1 finalTotal,
      cashAllocation := cashAllocation,
      sectorAllocation := calculateSectorAllocation finalStocks,
      excludedCount := some (marked.filter (·.excluded)).length }

/-! ## Weight validator (validateWeights) -/

/-- Structured counterpart of the validator's issue strings. -/
inductive ValIssue where
  | weightMismatch (calculated reported : ℚ)
  | sectorExceeds (sector : String) (weight : ℚ)
  | stockExceeds (nseCode : String) (weight : ℚ)
  | top5Exceeds (weight : ℚ)
deriving Repr, DecidableEq

/-- Summary sub-object of the validator result. -/
structure ValSummary where
  stockCount : ℕ
  totalWeight : ℚ
  cashAllocation : ℚ
  sectorCount : ℕ
  top5Weight : ℚ
deriving Repr, DecidableEq

/-- The validator result. -/
structure Validation where
  valid : Bool
  issues : List ValIssue
  summary : ValSummary
deriving Repr, DecidableEq

/-- `validateWeights result`: the engine's non-fatal self-check. -/
def validateWeights (result : Allocation) : Validation :=
  let totalWeight := (result.stocks.map (·.weight)).sum
  let issues₁ : List ValIssue :=
    if |totalWeight - result.totalWeight| > 1 then
      [.weightMismatch totalWeight result.totalWeight] else []
  let issues₂ := (result.sectorAllocation.filter (fun s => s.weight > 26)).map
    (fun s => ValIssue.sectorExceeds s.sector s.weight)
  let issues₃ := (result.stocks.filter (fun s => s.weight > 13)).map
    (fun s => ValIssue.stockExceeds s.nseCode s.weight)
  let top5Weight := ((result.stocks.take 5).map (·.weight)).sum
  let issues₄ : List ValIssue :=
    if top5Weight > 52 then [.top5Exceeds top5Weight] else []
  let issues := issues₁ ++ issues₂ ++ issues₃ ++ issues₄
  { valid := issues.isEmpty, issues := issues,
    summary := { stockCount := result.stocks.length, totalWeight := result.totalWeight,
                 cashAllocation := result.cashAllocation,
                 sectorCount := result.sectorAllocation.length,
                 top5Weight := round1 top5Weight } }

/-! ## Heap model of position sizing

To settle the no-mutation (frame) property the engine is re-expressed
over an explicit heap: stock objects live in a store addressed by
position, the caller passes a list of addresses, and every JS property
write becomes an explicit store update.  The shallow copies `{ ...s }`
are fresh allocations at the end of the store, so the property that the
caller's objects are untouched is a genuine statement about which
addresses get written. -/

/-- Read the object at address `a` (out-of-range reads give the default
object; they never occur on the addresses the engine uses). -/
def hread (h : List WStock) (a : ℕ) : WStock := h.getD a {}

/-- Write the object at address `a`. -/
def hwrite (h : List WStock) (a : ℕ) (v : WStock) : List WStock := h.set a v

/-- One JS property write `obj.f = e`: update the object at `a` by `f`. -/
def writeField (f : WStock → WStock) (h : List WStock) (a : ℕ) : List WStock :=
  hwrite h a (f (hread h a))

/-- A JS `forEach` of property writes over the objects at `addrs`. -/
def applyAll (f : WStock → WStock) (addrs : List ℕ) (h : List WStock) : List WStock :=
  addrs.foldl (writeField f) h

/-- Step 1: conviction write on each eligible copy. -/
def hPhaseConviction (h : List WStock) (addrs : List ℕ) : List WStock :=
  applyAll (fun s =>
    let safetyMultiplier := max (1/2) (s.scores.risk.score / 100)
    { s with conviction := s.compositeScore * safetyMultiplier }) addrs h

/-- Total conviction over the eligible copies. -/
def hTotalConviction (h : List WStock) (addrs : List ℕ) : ℚ :=
  ((addrs.map (hread h)).map (·.conviction)).sum

/-- Step 2: raw proportional weight write. -/
def hPhaseRaw (config : Config) (h : List WStock) (addrs : List ℕ) : List WStock :=
  let totalConviction := hTotalConviction h addrs
  applyAll (fun s =>
    { s with rawWeight := (s.conviction / totalConviction) * config.targetEquityAllocation })
    addrs h

/-- Step 3: dynamic per-stock cap write. -/
def hPhaseCap (config : Config) (h : List WStock) (addrs : List ℕ) : List WStock :=
  applyAll (fun s =>
    let safetyScore := s.scores.risk.score
    let maxWeight : ℚ :=
      if safetyScore ≥ 75 then config.maxSingleStock
      else if safetyScore ≥ 65 then 10
      else if safetyScore ≥ 55 then 8
      else 5
    { s with cappedWeight := min s.rawWeight maxWeight }) addrs h

/-- Sector group assignment write. -/
def hPhaseSector (h : List WStock) (addrs : List ℕ) : List WStock :=
  applyAll (fun s => { s with sectorGroup := getSectorGroup s.industry }) addrs h

/-- Sector total over the eligible copies, read from the store. -/
def hSectorTotal (h : List WStock) (addrs : List ℕ) (g : String) : ℚ :=
  (((addrs.map (hread h)).filter (fun s => s.sectorGroup == g)).map (·.cappedWeight)).sum

/-- Overflow flag of one sector pass in the heap model. -/
def hSectorOverflow (config : Config) (h : List WStock) (addrs : List ℕ) : Bool :=
  addrs.any (fun a => hSectorTotal h addrs (hread h a).sectorGroup > config.maxPerSector)

/-- One sector-cap pass: totals are read before any write, as in JS. -/
def hSectorPass (config : Config) (h : List WStock) (addrs : List ℕ) : List WStock :=
  applyAll (fun s =>
    let t := hSectorTotal h addrs s.sectorGroup
    if t > config.maxPerSector then
      { s with cappedWeight := s.cappedWeight * (config.maxPerSector / t) }
    else s) addrs h

/-- The bounded sector-cap loop in the heap model. -/
def hSectorLoop (config : Config) : ℕ → List WStock → List ℕ → List WStock
  | 0, h, _ => h
  | n + 1, h, addrs =>
    if hSectorOverflow config h addrs then
      hSectorLoop config n (hSectorPass config h addrs) addrs
    else h

/-- Step 5: scale the five largest copies when their sum exceeds the cap. -/
def hPhaseTop5 (config : Config) (h : List WStock) (sortedAddrs : List ℕ) : List WStock :=
  let top5Total := ((sortedAddrs.take 5).map (fun a => (hread h a).cappedWeight)).sum
  if top5Total > config.maxTop5 then
    applyAll (fun s => { s with cappedWeight := s.cappedWeight * (config.maxTop5 / top5Total) })
      (sortedAddrs.take 5) h
  else h

/-- Step 6: mark copies below the minimum weight as excluded. -/
def hPhaseExclude (config : Config) (h : List WStock) (addrs : List ℕ) : List WStock :=
  applyAll (fun s =>
    if s.cappedWeight < config.minStockWeight then { s with excluded := true } else s) addrs h

/-- Step 7a: normalized, rounded weight write on the included copies. -/
def hPhaseWeight (config : Config) (h : List WStock) (includedAddrs : List ℕ) : List WStock :=
  let rawTotal := ((includedAddrs.map (hread h)).map (·.cappedWeight)).sum
  let normalizer := if rawTotal > 0 then config.targetEquityAllocation / rawTotal else 1
  applyAll (fun s => { s with weight := round1 (s.cappedWeight * normalizer) })
    includedAddrs h

/-- Step 7b: absorb the rounding residue into the first included copy. -/
def hPhaseAdjust (config : Config) (h : List WStock) (includedAddrs : List ℕ) : List WStock :=
  let currentTotal := ((includedAddrs.map (hread h)).map (·.weight)).sum
  let diff := config.targetEquityAllocation - currentTotal
  match includedAddrs with
  | [] => h
  | a :: _ =>
    if |diff| ≥ 1/10 then
      writeField (fun s => { s with weight := round1 (s.weight + diff) }) h a
    else h

set_option maxHeartbeats 1000000 in
/-- `calculatePortfolioWeights` over the explicit store: `addrs` are the
caller's stock objects; the eligible ones are shallow-copied to fresh
addresses at the end of the store and all subsequent writes target only
those copies.  Returns the final store and the allocation. -/
def calculatePortfolioWeightsHeap (h : List WStock) (addrs : List ℕ) (config : Config) :
    List WStock × Allocation :=
  let eligAddrs := (addrs.filter (fun a =>
    (hread h a).passed && decide ((hread h a).compositeScore ≥ 45))).take 20
  if eligAddrs.isEmpty then
    (h, { stocks := [], totalWeight := 0, cashAllocation := 100,
          sectorAllocation := [], excludedCount := none })
  else
    let copyAddrs := List.range' h.length eligAddrs.length
    let h₁ := h ++ eligAddrs.map (hread h)
    let h₂ := hPhaseConviction h₁ copyAddrs
    let h₃ := hPhaseRaw config h₂ copyAddrs
    let h₄ := hPhaseCap config h₃ copyAddrs
    let h₅ := hPhaseSector h₄ copyAddrs
    let h₆ := hSectorLoop config 10 h₅ copyAddrs
    let sortedAddrs := sortDescBy (fun a => (hread h₆ a).cappedWeight) copyAddrs
    let h₇ := hPhaseTop5 config h₆ sortedAddrs
    let h₈ := hPhaseExclude config h₇ sortedAddrs
    let includedAddrs := sortedAddrs.filter (fun a => !(hread h₈ a).excluded)
    let h₉ := hPhaseWeight config h₈ includedAddrs
    let h₁₀ := hPhaseAdjust config h₉ includedAddrs
    let finalTotal := ((includedAddrs.map (hread h₁₀)).map (·.weight)).sum
    let cashAllocation := round1 (100 - finalTotal)
    let finalStocks := sortDescBy (·.weight) ((includedAddrs.map (hread h₁₀)).map mkFinal)
    (h₁₀,
     { stocks := finalStocks,
       totalWeight := round1 finalTotal,
       cashAllocation := cashAllocation,
       sectorAllocation := calculateSectorAllocation finalStocks,
       excludedCount := some (copyAddrs.filter (fun a => (hread h₁₀ a).excluded)).length })

/-! ## Concrete inputs used by witnesses and counterexamples -/

/-- Ten stocks with 3-month returns averaging 15, eight of them positive. -/
def tenStockUniverse : List Stock :=
  [{ return3m := 20 }, { return3m := 20 }, { return3m := 20 }, { return3m := 20 },
   { return3m := 20 }, { return3m := 20 }, { return3m := 20 }, { return3m := 20 },
   { return3m := -5 }, { return3m := -5 }]

/-- The stock of the C3 scenario: current ROCE 5 in a default-threshold
(15) sector, 3-year average ROCE 4. -/
def c3ScenarioStock : Stock :=
  { name := "SCEN", nseCode := "SCEN", industry := "default", roce := 5, avgRoce3y := 4 }

/-- First stock of the three-stock sizing scenario: composite 80, safety
80, in the Healthcare sector group. -/
def scenStock1 : ScoredStock :=
  { name := "S1", nseCode := "S1", industry := "Pharmaceuticals", passed := true,
    compositeScore := 80, scores := { risk := { score := 80, riskLevel := "Low Risk" } } }

/-- Second stock of the sizing scenario: composite 70, safety 80,
Technology sector group. -/
def scenStock2 : ScoredStock :=
  { name := "S2", nseCode := "S2", industry := "IT Enabled Services", passed := true,
    compositeScore := 70, scores := { risk := { score := 80, riskLevel := "Low Risk" } } }

/-- Third stock of the sizing scenario: composite 60, safety 80,
Consumer sector group. -/
def scenStock3 : ScoredStock :=
  { name := "S3", nseCode := "S3", industry := "Personal Care", passed := true,
    compositeScore := 60, scores := { risk := { score := 80, riskLevel := "Low Risk" } } }

/-- A one-object store used to witness the heap frame property. -/
def heapWitnessStore : List WStock := [mkW scenStock1]

/-- The working state of the three scenario stocks after conviction, raw
weight, per-stock cap and sector-group assignment (convictions 64 / 56 /
48, raw weights 240/7, 30 and 180/7 all capped at 12). -/
def scenAfterSector : List WStock :=
  [{ name := "S1", nseCode := "S1", bseCode := "", industry := "Pharmaceuticals",
     currentPrice := 0, marketCap := 0, passed := true, compositeScore := 80,
     recommendation := "",
     scores := { risk := { score := 80, riskLevel := "Low Risk" },
                 fundamental := { score := 0, riskLevel := "" },
                 valuation := { score := 0, riskLevel := "" },
                 momentum := { score := 0, riskLevel := "" },
                 external := { score := 0, riskLevel := "" } },
     return1w := 0, return1m := 0, return3m := 0,
     conviction := 64, rawWeight := 240 / 7, cappedWeight := 12,
     sectorGroup := "Healthcare", excluded := false, weight := 0 },
   { name := "S2", nseCode := "S2", bseCode := "", industry := "IT Enabled Services",
     currentPrice := 0, marketCap := 0, passed := true, compositeScore := 70,
     recommendation := "",
     scores := { risk := { score := 80, riskLevel := "Low Risk" },
                 fundamental := { score := 0, riskLevel := "" },
                 valuation := { score := 0, riskLevel := "" },
                 momentum := { score := 0, riskLevel := "" },
                 external := { score := 0, riskLevel := "" } },
     return1w := 0, return1m := 0, return3m := 0,
     conviction := 56, rawWeight := 30, cappedWeight := 12,
     sectorGroup := "Technology", excluded := false, weight := 0 },
   { name := "S3", nseCode := "S3", bseCode := "", industry := "Personal Care",
     currentPrice := 0, marketCap := 0, passed := true, compositeScore := 60,
     recommendation := "",
     scores := { risk := { score := 80, riskLevel := "Low Risk" },
                 fundamental := { score := 0, riskLevel := "" },
                 valuation := { score := 0, riskLevel := "" },
                 momentum := { score := 0, riskLevel := "" },
                 external := { score := 0, riskLevel := "" } },
     return1w := 0, return1m := 0, return3m := 0,
     conviction := 48, rawWeight := 180 / 7, cappedWeight := 12,
     sectorGroup := "Consumer", excluded := false, weight := 0 }]

/-! ## General lemmas -/

/-- Inserting into a descending-sorted list is a permutation with cons. -/
lemma insertDescBy_perm (key : α → ℚ) (l : List α) (x : α) :
    (insertDescBy key l x).Perm (x :: l) := by
  induction l with
  | nil => simp [insertDescBy]
  | cons y ys ih =>
    simp only [insertDescBy]
    split
    · exact List.Perm.refl _
    · exact (ih.cons y).trans (List.Perm.swap x y ys)

/-- The insertion fold permutes the accumulator followed by the input. -/
lemma foldl_insertDescBy_perm (key : α → ℚ) (l : List α) :
    ∀ acc : List α, (l.foldl (insertDescBy key) acc).Perm (acc ++ l) := by
  induction l with
  | nil => intro acc; simp
  | cons x xs ih =>
    intro acc
    simp only [List.foldl_cons]
    refine (ih (insertDescBy key acc x)).trans ?_
    refine (List.Perm.append_right xs (insertDescBy_perm key acc x)).trans ?_
    exact List.perm_middle.symm

/-- The stable descending sort is a permutation of its input. -/
lemma sortDescBy_perm (key : α → ℚ) (l : List α) : (sortDescBy key l).Perm l := by
  simpa using foldl_insertDescBy_perm key l []

/-- Sums of a projection are invariant under the descending sort. -/
lemma sum_map_sortDescBy (key : α → ℚ) (f : α → ℚ) (l : List α) :
    ((sortDescBy key l).map f).sum = (l.map f).sum :=
  ((sortDescBy_perm key l).map f).sum_eq

/-- Membership is invariant under the descending sort. -/
lemma mem_of_mem_sortDescBy {key : α → ℚ} {l : List α} {x : α}
    (h : x ∈ sortDescBy key l) : x ∈ l :=
  (sortDescBy_perm key l).mem_iff.mp h

/-- `jsRound` agrees with the mathematical round-half-up. -/
lemma jsRound_eq_round (x : ℚ) : jsRound x = round x := (round_eq x).symm

/-- Rounding to one decimal moves a rational by at most 1/20. -/
lemma abs_round1_sub (x : ℚ) : |round1 x - x| ≤ 1/20 := by
  have h : |(round (x * 10) : ℚ) - x * 10| ≤ 1/2 := by
    rw [abs_sub_comm]; exact abs_sub_round _
  have e : round1 x - x = ((round (x * 10) : ℚ) - x * 10) / 10 := by
    unfold round1 jsRound
    rw [← round_eq]
    ring
  rw [e, abs_div, show |(10 : ℚ)| = 10 by norm_num]
  linarith

/-! ## Claims -/

/-- The gate's `passed` flag is definitionally the emptiness of `failures`. -/
lemma gate_passed_def (stock : Stock) :
    (checkQualityGates stock).passed = (checkQualityGates stock).failures.isEmpty := rfl

/-- C5: `checkQualityGates` passes a stock exactly when its hard-failure
list is empty; warnings never enter the decision, so any number of
warnings with zero failures still passes. -/
theorem gate_passed_iff_no_failures (stock : Stock) :
    (checkQualityGates stock).passed = true ↔ (checkQualityGates stock).failures = [] := by
  rw [gate_passed_def]
  exact List.isEmpty_iff

/-- C6: the dynamic composite layer weights sum exactly to 1 in each of
the three market regimes. -/
theorem dynamic_weights_sum_to_one :
    (getDynamicWeights "BULLISH").total = 1 ∧
    (getDynamicWeights "BEARISH").total = 1 ∧
    (getDynamicWeights "NEUTRAL").total = 1 := by
  refine ⟨?_, ?_, ?_⟩ <;>
    simp only [getDynamicWeights, LayerWeights.total,
      show (("BULLISH" : String) = "BEARISH") = False by decide,
      show (("NEUTRAL" : String) = "BEARISH") = False by decide,
      show (("NEUTRAL" : String) = "BULLISH") = False by decide,
      if_false, if_pos rfl] <;>
    norm_num

/-- With no overflowing sector the loop exits on its first pass, leaving
the stocks untouched. -/
lemma sectorLoop_exit (config : Config) (n : ℕ) (stocks : List WStock)
    (h : sectorOverflowExists config stocks = false) :
    sectorLoop config (n + 1) stocks = (stocks, 1) := by
  unfold sectorLoop
  rw [h]
  simp

/-- The iteration counter never exceeds the fuel. -/
lemma sectorLoop_count_le (config : Config) :
    ∀ (n : ℕ) (stocks : List WStock), (sectorLoop config n stocks).2 ≤ n := by
  intro n
  induction n with
  | zero => intro stocks; simp [sectorLoop]
  | succ m ih =>
    intro stocks
    unfold sectorLoop
    by_cases h : sectorOverflowExists config stocks
    · rw [h]
      simpa using Nat.succ_le_succ (ih (sectorPass config stocks))
    · rw [Bool.not_eq_true] at h
      rw [h]
      simp

/-- C9: the sector-cap rebalancing loop runs at most 10 passes, exits on
the first pass when no sector is over its cap, and the whole engine is a
total function of its input. -/
theorem sector_loop_terminates (config : Config) (stocks : List WStock) :
    (sectorLoop config 10 stocks).2 ≤ 10 ∧
    (sectorOverflowExists config stocks = false → sectorLoop config 10 stocks = (stocks, 1)) ∧
    (∀ scored : List ScoredStock, ∃ r, calculatePortfolioWeights scored config = r) := by
  refine ⟨sectorLoop_count_le config 10 stocks, ?_, fun scored => ⟨_, rfl⟩⟩
  intro h
  exact sectorLoop_exit config 9 stocks h

/-- Witness for C9 at a concrete input: the empty working list has no
overflowing sector, so the loop stops after one pass. -/
theorem sector_loop_terminates_witness :
    sectorOverflowExists {} [] = false ∧ sectorLoop {} 10 [] = ([], 1) :=
  ⟨by simp [sectorOverflowExists], (sector_loop_terminates {} []).2.1 (by simp [sectorOverflowExists])⟩

/-- C8: when nothing passes the eligibility filter the engine returns the
well-formed empty allocation (no stocks, all cash) instead of failing. -/
theorem degenerate_universe_empty_allocation (scoredStocks : List ScoredStock) (config : Config)
    (h : ∀ s ∈ scoredStocks, ¬ (s.passed = true ∧ s.compositeScore ≥ 45)) :
    calculatePortfolioWeights scoredStocks config =
      { stocks := [], totalWeight := 0, cashAllocation := 100,
        sectorAllocation := [], excludedCount := none } := by
  have hf : scoredStocks.filter (fun s => s.passed && decide (s.compositeScore ≥ 45)) = [] := by
    apply List.filter_eq_nil_iff.mpr
    intro a ha
    simp only [Bool.and_eq_true, decide_eq_true_eq, not_and]
    intro hp hc
    exact h a ha ⟨hp, hc⟩
  unfold calculatePortfolioWeights
  rw [hf]
  simp

/-- Witness for C8: the empty input trivially satisfies the hypothesis. -/
theorem degenerate_universe_witness :
    (∀ s ∈ ([] : List ScoredStock), ¬ (s.passed = true ∧ s.compositeScore ≥ 45)) ∧
    calculatePortfolioWeights [] {} =
      { stocks := [], totalWeight := 0, cashAllocation := 100,
        sectorAllocation := [], excludedCount := none } :=
  ⟨by simp, degenerate_universe_empty_allocation [] {} (by simp)⟩

/-- The final projection keeps the weight field. -/
lemma mkFinal_weight (s : WStock) : (mkFinal s).weight = s.weight := rfl

/-- Core of the accounting identity: however the included working stocks
came about, the re-sorted final stocks' weights plus the rounded cash
land within 0.1 of 100. -/
lemma final_sum_plus_cash (l : List WStock) :
    |(((sortDescBy (fun s : FinalStock => s.weight) (l.map mkFinal)).map (·.weight)).sum
        + round1 (100 - (l.map (·.weight)).sum)) - 100| ≤ 1/10 := by
  have h1 : ((sortDescBy (fun s : FinalStock => s.weight) (l.map mkFinal)).map (·.weight)).sum
      = (l.map (·.weight)).sum := by
    rw [sum_map_sortDescBy, List.map_map]
    rfl
  rw [h1]
  have h2 := abs_round1_sub (100 - (l.map (·.weight)).sum)
  have e : (l.map (·.weight)).sum + round1 (100 - (l.map (·.weight)).sum) - 100
      = round1 (100 - (l.map (·.weight)).sum) - (100 - (l.map (·.weight)).sum) := by ring
  rw [e]
  calc |round1 (100 - (l.map (·.weight)).sum) - (100 - (l.map (·.weight)).sum)|
      ≤ 1/20 := h2
    _ ≤ 1/10 := by norm_num

set_option maxHeartbeats 2000000 in
/-- C2: for every input list under the default configuration, the final
stock weights plus the reported cash allocation total 100 within 0.1. -/
theorem weights_plus_cash_is_100 (scoredStocks : List ScoredStock) :
    |(((calculatePortfolioWeights scoredStocks {}).stocks.map (·.weight)).sum
        + (calculatePortfolioWeights scoredStocks {}).cashAllocation) - 100| ≤ 1/10 := by
  simp only [calculatePortfolioWeights]
  split
  · simp
  · exact final_sum_plus_cash _

/-- On a non-empty universe the detector is the two-threshold
classifier over average return and positive ratio. -/
lemma detectMarketCondition_eq (stocks : List Stock) (h : stocks ≠ []) :
    detectMarketCondition stocks =
      if avg3m stocks > 10 ∧ posRatio3m stocks > 7/10 then "BULLISH"
      else if avg3m stocks < -10 ∧ posRatio3m stocks < 3/10 then "BEARISH"
      else "NEUTRAL" := by
  unfold detectMarketCondition avg3m posRatio3m
  simp only [List.length_map]
  rw [if_neg (by simpa using fun hc => h (List.length_eq_zero.mp hc))]

/-- C4: the detector returns BULLISH exactly when average 3-month return
exceeds 10 with positive ratio above 0.7, BEARISH exactly when the
average is below −10 with positive ratio below 0.3, NEUTRAL otherwise;
and any 10-stock universe with average return 15 and 8 positive returns
is BULLISH. -/
theorem market_condition_classification :
    (∀ stocks : List Stock, stocks ≠ [] →
      ((detectMarketCondition stocks = "BULLISH" ↔
          avg3m stocks > 10 ∧ posRatio3m stocks > 7/10) ∧
       (detectMarketCondition stocks = "BEARISH" ↔
          avg3m stocks < -10 ∧ posRatio3m stocks < 3/10) ∧
       (detectMarketCondition stocks = "NEUTRAL" ↔
          (¬(avg3m stocks > 10 ∧ posRatio3m stocks > 7/10) ∧
           ¬(avg3m stocks < -10 ∧ posRatio3m stocks < 3/10))))) ∧
    (∀ stocks : List Stock, stocks.length = 10 → avg3m stocks = 15 →
      posCount3m stocks = 8 → detectMarketCondition stocks = "BULLISH") := by
  constructor
  · intro stocks hne
    rw [detectMarketCondition_eq stocks hne]
    by_cases h1 : avg3m stocks > 10 ∧ posRatio3m stocks > 7/10
    · have h2 : ¬ (avg3m stocks < -10 ∧ posRatio3m stocks < 3/10) := by
        intro h2; linarith [h1.1, h2.1]
      rw [if_pos h1]
      refine ⟨by simp [h1], ?_, ?_⟩
      · simp only [show ("BULLISH" : String) = "BEARISH" ↔ False by simp]
        simp [h2]
      · simp only [show ("BULLISH" : String) = "NEUTRAL" ↔ False by simp]
        simp [h1]
    · rw [if_neg h1]
      by_cases h2 : avg3m stocks < -10 ∧ posRatio3m stocks < 3/10
      · rw [if_pos h2]
        refine ⟨?_, by simp [h2], ?_⟩
        · simp only [show ("BEARISH" : String) = "BULLISH" ↔ False by simp]
          simp [h1]
        · simp only [show ("BEARISH" : String) = "NEUTRAL" ↔ False by simp]
          simp [h2]
      · rw [if_neg h2]
        refine ⟨?_, ?_, by simp [h1, h2]⟩
        · simp only [show ("NEUTRAL" : String) = "BULLISH" ↔ False by simp]
          simp [h1]
        · simp only [show ("NEUTRAL" : String) = "BEARISH" ↔ False by simp]
          simp [h2]
  · intro stocks hlen havg hcount
    have hne : stocks ≠ [] := by
      intro hc; rw [hc] at hlen; simp at hlen
    rw [detectMarketCondition_eq stocks hne]
    have hratio : posRatio3m stocks = (posCount3m stocks : ℚ) / (stocks.length : ℚ) := rfl
    rw [if_pos ⟨by rw [havg]; norm_num, by rw [hratio, hcount, hlen]; norm_num⟩]

/-- Witness for C4 at the concrete ten-stock universe: both the
classification and the scenario conclusion hold there. -/
theorem market_condition_classification_witness :
    (detectMarketCondition tenStockUniverse = "BULLISH" ↔
      avg3m tenStockUniverse > 10 ∧ posRatio3m tenStockUniverse > 7/10) ∧
    detectMarketCondition tenStockUniverse = "BULLISH" :=
  ⟨(market_condition_classification.1 tenStockUniverse (by simp [tenStockUniverse])).1,
   market_condition_classification.2 tenStockUniverse
     (by simp [tenStockUniverse])
     (by norm_num [tenStockUniverse, avg3m])
     (by norm_num [tenStockUniverse, posCount3m])⟩

/-- Closed form of the profitability pass count. -/
lemma profitabilityPassCount_eq (s : Stock) :
    profitabilityPassCount s =
      (if s.roce ≥ gateRoceThreshold s then 1 else 0) +
      ((if s.avgRoce3y ≥ gateRoceThreshold s * (8/10) then 1 else 0) +
       (if s.roce ≥ s.avgRoce3y then 1 else 0)) := by
  unfold profitabilityPassCount checkQualityGates gateRoceThreshold
  by_cases h1 : s.roce ≥ getROCEThreshold (if s.industry = "" then "default" else s.industry) <;>
    by_cases h2 : s.avgRoce3y ≥
      getROCEThreshold (if s.industry = "" then "default" else s.industry) * (8/10) <;>
    by_cases h3 : s.roce ≥ s.avgRoce3y <;>
    simp [List.filter, h1, h2, h3]

/-- C7: the profitability gate is monotone in current ROCE — with every
other field fixed, a lower ROCE passes at most as many of the three
checks, so lowering ROCE can only push a passing 2-of-3 / 3-of-3 result
toward failure, never the reverse. -/
theorem profitability_monotone_in_roce (s : Stock) (r₁ r₂ : ℚ) (h : r₁ ≤ r₂) :
    profitabilityPassCount { s with roce := r₁ } ≤ profitabilityPassCount { s with roce := r₂ } ∧
    (2 ≤ profitabilityPassCount { s with roce := r₁ } →
      2 ≤ profitabilityPassCount { s with roce := r₂ }) := by
  have key : profitabilityPassCount { s with roce := r₁ } ≤
      profitabilityPassCount { s with roce := r₂ } := by
    rw [profitabilityPassCount_eq, profitabilityPassCount_eq]
    have ht : gateRoceThreshold { s with roce := r₁ } = gateRoceThreshold { s with roce := r₂ } := rfl
    rw [ht]
    simp only
    have m1 : (if r₁ ≥ gateRoceThreshold { s with roce := r₂ } then (1:ℕ) else 0) ≤
        (if r₂ ≥ gateRoceThreshold { s with roce := r₂ } then 1 else 0) := by
      split_ifs with ha hb
      · exact le_refl _
      · exact absurd (le_trans ha h) hb
      · exact Nat.zero_le _
      · exact le_refl _
    have m3 : (if r₁ ≥ s.avgRoce3y then (1:ℕ) else 0) ≤ (if r₂ ≥ s.avgRoce3y then 1 else 0) := by
      split_ifs with ha hb
      · exact le_refl _
      · exact absurd (le_trans ha h) hb
      · exact Nat.zero_le _
      · exact le_refl _
    exact Nat.add_le_add m1 (Nat.add_le_add (le_refl _) m3)
  exact ⟨key, fun h2 => le_trans h2 key⟩

/-- Witness for C7 at the scenario stock with ROCE lowered from 20 to 3. -/
theorem profitability_monotone_witness :
    ((3 : ℚ) ≤ 20) ∧
    profitabilityPassCount { c3ScenarioStock with roce := 3 } ≤
      profitabilityPassCount { c3ScenarioStock with roce := 20 } :=
  ⟨by norm_num, (profitability_monotone_in_roce c3ScenarioStock 3 20 (by norm_num)).1⟩

/-- The gate's failure list, expressed through the three hard-failure
clauses (profitability, promoter holding, market cap). -/
lemma gate_failures_eq (stock : Stock) :
    (checkQualityGates stock).failures =
      (if 2 ≤ profitabilityPassCount stock then []
        else [GateIssue.profitability (profitabilityPassCount stock)]) ++
      (if stock.promoterHolding > 0 ∧ stock.promoterHolding < 26 then
        [GateIssue.lowPromoterHolding stock.promoterHolding] else []) ++
      (if stock.marketCap < 300 then [GateIssue.lowMarketCap stock.marketCap] else []) := rfl

/-- A profitability result below 2-of-3 is a hard gate failure. -/
lemma gate_fails_of_low_profitability (stock : Stock)
    (h : profitabilityPassCount stock < 2) :
    (checkQualityGates stock).passed = false := by
  rw [gate_passed_def, gate_failures_eq, if_neg (by omega)]
  simp

/-- A gate-failed stock short-circuits `calculateStockScore` into the
EXCLUDED record, for every choice of layer scorers. -/
lemma calculateStockScore_excluded
    (rs fs vs ms : Stock → LayerResult) (es : Stock → List Stock → LayerResult)
    (stock : Stock) (allStocks : List Stock) (mc : Option String)
    (h : (checkQualityGates stock).passed = false) :
    calculateStockScore rs fs vs ms es stock allStocks mc =
      { name := stock.name, nseCode := stock.nseCode, industry := stock.industry,
        passed := false, gateResult := checkQualityGates stock, scores := none,
        compositeScore := 0, recommendation := "EXCLUDED" } := by
  simp only [calculateStockScore]
  rw [h]
  simp

/-- Counterexample to C3 as stated: the scenario stock (ROCE 5,
threshold 15, 3-year average 4) passes 1 of the 3 profitability checks,
not 0 — current ROCE 5 ≥ 3-year average 4, so the improving check holds. -/
theorem profitability_scenario_counterexample :
    c3ScenarioStock.roce = 5 ∧ gateRoceThreshold c3ScenarioStock = 15 ∧
    c3ScenarioStock.avgRoce3y = 4 ∧ profitabilityPassCount c3ScenarioStock = 1 := by
  have ht : gateRoceThreshold c3ScenarioStock = 15 := by
    simp [gateRoceThreshold, c3ScenarioStock, getROCEThreshold, roceThresholds, List.lookup]
  refine ⟨rfl, ht, rfl, ?_⟩
  rw [profitabilityPassCount_eq, ht]
  norm_num [c3ScenarioStock]

/-- C3 (amended): a stock with current ROCE 5 against gate threshold 15
and 3-year average ROCE 4 passes 1 of 3 profitability checks (below the
2-of-3 bar), so the gate hard-fails and `calculateStockScore` returns
compositeScore 0 with recommendation EXCLUDED, whatever the layer
scorers compute. -/
theorem profitability_scenario_excluded (stock : Stock)
    (h1 : stock.roce = 5) (h2 : gateRoceThreshold stock = 15) (h3 : stock.avgRoce3y = 4) :
    profitabilityPassCount stock = 1 ∧
    (checkQualityGates stock).passed = false ∧
    ∀ (rs fs vs ms : Stock → LayerResult) (es : Stock → List Stock → LayerResult)
      (allStocks : List Stock) (mc : Option String),
      (calculateStockScore rs fs vs ms es stock allStocks mc).compositeScore = 0 ∧
      (calculateStockScore rs fs vs ms es stock allStocks mc).recommendation = "EXCLUDED" := by
  have hcount : profitabilityPassCount stock = 1 := by
    rw [profitabilityPassCount_eq, h1, h2, h3]
    norm_num
  have hpassed : (checkQualityGates stock).passed = false :=
    gate_fails_of_low_profitability stock (by omega)
  refine ⟨hcount, hpassed, ?_⟩
  intro rs fs vs ms es allStocks mc
  rw [calculateStockScore_excluded rs fs vs ms es stock allStocks mc hpassed]
  exact ⟨rfl, rfl⟩

/-- Witness for C3 (amended) at the concrete scenario stock. -/
theorem profitability_scenario_excluded_witness :
    gateRoceThreshold c3ScenarioStock = 15 ∧
    profitabilityPassCount c3ScenarioStock = 1 ∧
    (checkQualityGates c3ScenarioStock).passed = false :=
  have ht : gateRoceThreshold c3ScenarioStock = 15 := by
    simp [gateRoceThreshold, c3ScenarioStock, getROCEThreshold, roceThresholds, List.lookup]
  ⟨ht, (profitability_scenario_excluded c3ScenarioStock rfl ht rfl).1,
       (profitability_scenario_excluded c3ScenarioStock rfl ht rfl).2.1⟩

/-- Specialization of the loop-exit lemma at the source's fuel of 10. -/
lemma sectorLoop10_exit (config : Config) (stocks : List WStock)
    (h : sectorOverflowExists config stocks = false) :
    sectorLoop config 10 stocks = (stocks, 1) :=
  sectorLoop_exit config 9 stocks h

/-- Sector-group lookups of the scenario industries. -/
lemma sg_pharma : getSectorGroup "Pharmaceuticals" = "Healthcare" := by decide

/-- Sector-group lookup of the second scenario industry. -/
lemma sg_it : getSectorGroup "IT Enabled Services" = "Technology" := by decide

/-- Sector-group lookup of the third scenario industry. -/
lemma sg_pc : getSectorGroup "Personal Care" = "Consumer" := by decide

/-- A stock above 13% in the result makes the validator report issues. -/
lemma validateWeights_invalid_of_stockExceeds (result : Allocation)
    (h : ∃ s ∈ result.stocks, s.weight > 13) :
    (validateWeights result).valid = false := by
  obtain ⟨s, hs, hw⟩ := h
  have h3 : result.stocks.filter (fun s => decide (s.weight > 13)) ≠ [] := by
    intro hc
    have := List.filter_eq_nil_iff.mp hc s hs
    simp [hw] at this
  simp only [validateWeights]
  simp [List.isEmpty_iff, List.append_eq_nil, List.map_eq_nil_iff, h3]

set_option maxHeartbeats 4000000 in
/-- C1 is violated by the code: on the three-stock scenario (composites
80/70/60, safety 80 so each per-stock cap is 12, distinct sector groups,
default config) the engine renormalizes the three capped weights of 12
up to the 90% equity target, producing final weights of 30 each — every
stock ends far above its 12% cap and the engine's own `validateWeights`
self-check reports the result invalid. -/
theorem per_stock_cap_violated_in_scenario :
    ((calculatePortfolioWeights [scenStock1, scenStock2, scenStock3] {}).stocks.map (·.weight))
        = [30, 30, 30] ∧
    ((calculatePortfolioWeights [scenStock1, scenStock2, scenStock3] {}).stocks.all
        (fun st => st.weight > 12)) = true ∧
    (validateWeights (calculatePortfolioWeights [scenStock1, scenStock2, scenStock3] {})).valid
        = false := by
  have hov : sectorOverflowExists {} scenAfterSector = false := by
    simp [sectorOverflowExists, sectorTotal, scenAfterSector, List.filter_cons]
    norm_num
  have hL := sectorLoop10_exit {} scenAfterSector hov
  simp only [scenAfterSector] at hL
  have hstocks :
      ((calculatePortfolioWeights [scenStock1, scenStock2, scenStock3] {}).stocks.map (·.weight))
        = [30, 30, 30] := by
    norm_num [calculatePortfolioWeights, mkW, scenStock1, scenStock2, scenStock3,
      sortDescBy, insertDescBy, hL,
      sg_pharma, sg_it, sg_pc, mkFinal, round1, jsRound, max_def, min_def,
      calculateSectorAllocation, Int.floor_eq_iff]
  refine ⟨hstocks, ?_, ?_⟩
  · apply List.all_eq_true.mpr
    intro st hst
    have hmem : st.weight ∈
        ((calculatePortfolioWeights [scenStock1, scenStock2, scenStock3] {}).stocks.map
          (·.weight)) := List.mem_map_of_mem _ hst
    rw [hstocks] at hmem
    have : st.weight = 30 := by simpa using hmem
    simp [this]
    norm_num
  · apply validateWeights_invalid_of_stockExceeds
    have h30 : (30 : ℚ) ∈
        ((calculatePortfolioWeights [scenStock1, scenStock2, scenStock3] {}).stocks.map
          (·.weight)) := by rw [hstocks]; simp
    obtain ⟨s, hs, hw⟩ := List.mem_map.mp h30
    exact ⟨s, hs, by rw [hw]; norm_num⟩

/-! ## Frame lemmas for the heap model -/

/-- Appending fresh objects does not change existing reads. -/
lemma hread_append (h extra : List WStock) (b : ℕ) (hb : b < h.length) :
    hread (h ++ extra) b = hread h b := by
  simp [hread, List.getD, List.getElem?_append, hb]

/-- Writing one address leaves every other address unchanged. -/
lemma hread_hwrite_ne (h : List WStock) (a b : ℕ) (v : WStock) (hne : b ≠ a) :
    hread (hwrite h a v) b = hread h b := by
  simp [hread, hwrite, List.getD, List.getElem?_set_ne (Ne.symm hne)]

/-- A field write at an address at or above `n` preserves reads below `n`. -/
lemma writeField_preserves (f : WStock → WStock) (h : List WStock) (a b n : ℕ)
    (han : n ≤ a) (hb : b < n) :
    hread (writeField f h a) b = hread h b :=
  hread_hwrite_ne h a b _ (by omega)

/-- A `forEach` of field writes over addresses at or above `n` preserves
reads below `n`. -/
lemma applyAll_preserves (f : WStock → WStock) (addrs : List ℕ) (h : List WStock) (n : ℕ)
    (hall : ∀ x ∈ addrs, n ≤ x) (b : ℕ) (hb : b < n) :
    hread (applyAll f addrs h) b = hread h b := by
  induction addrs generalizing h with
  | nil => rfl
  | cons a as ih =>
    simp only [applyAll, List.foldl_cons]
    rw [show List.foldl (writeField f) (writeField f h a) as = applyAll f as (writeField f h a) from rfl]
    rw [ih (writeField f h a) (fun x hx => hall x (List.mem_cons_of_mem a hx))]
    exact writeField_preserves f h a b n (hall a (List.mem_cons_self a as)) hb

/-- The conviction pass preserves reads below `n`. -/
lemma hPhaseConviction_preserves (h : List WStock) (addrs : List ℕ) (n : ℕ)
    (hall : ∀ x ∈ addrs, n ≤ x) (b : ℕ) (hb : b < n) :
    hread (hPhaseConviction h addrs) b = hread h b :=
  applyAll_preserves _ addrs h n hall b hb

/-- The raw-weight pass preserves reads below `n`. -/
lemma hPhaseRaw_preserves (config : Config) (h : List WStock) (addrs : List ℕ) (n : ℕ)
    (hall : ∀ x ∈ addrs, n ≤ x) (b : ℕ) (hb : b < n) :
    hread (hPhaseRaw config h addrs) b = hread h b :=
  applyAll_preserves _ addrs h n hall b hb

/-- The per-stock-cap pass preserves reads below `n`. -/
lemma hPhaseCap_preserves (config : Config) (h : List WStock) (addrs : List ℕ) (n : ℕ)
    (hall : ∀ x ∈ addrs, n ≤ x) (b : ℕ) (hb : b < n) :
    hread (hPhaseCap config h addrs) b = hread h b :=
  applyAll_preserves _ addrs h n hall b hb

/-- The sector-assignment pass preserves reads below `n`. -/
lemma hPhaseSector_preserves (h : List WStock) (addrs : List ℕ) (n : ℕ)
    (hall : ∀ x ∈ addrs, n ≤ x) (b : ℕ) (hb : b < n) :
    hread (hPhaseSector h addrs) b = hread h b :=
  applyAll_preserves _ addrs h n hall b hb

/-- One sector-cap pass preserves reads below `n`. -/
lemma hSectorPass_preserves (config : Config) (h : List WStock) (addrs : List ℕ) (n : ℕ)
    (hall : ∀ x ∈ addrs, n ≤ x) (b : ℕ) (hb : b < n) :
    hread (hSectorPass config h addrs) b = hread h b :=
  applyAll_preserves _ addrs h n hall b hb

/-- The bounded sector loop preserves reads below `n`. -/
lemma hSectorLoop_preserves (config : Config) (fuel : ℕ) :
    ∀ (h : List WStock) (addrs : List ℕ) (n : ℕ),
      (∀ x ∈ addrs, n ≤ x) → ∀ b < n, hread (hSectorLoop config fuel h addrs) b = hread h b := by
  induction fuel with
  | zero => intro h addrs n hall b hb; rfl
  | succ m ih =>
    intro h addrs n hall b hb
    unfold hSectorLoop
    by_cases hov : hSectorOverflow config h addrs
    · rw [hov]
      simp only [if_true]
      rw [ih (hSectorPass config h addrs) addrs n hall b hb]
      exact hSectorPass_preserves config h addrs n hall b hb
    · rw [Bool.not_eq_true] at hov
      rw [hov]
      simp

/-- The top-5 scaling preserves reads below `n`. -/
lemma hPhaseTop5_preserves (config : Config) (h : List WStock) (sortedAddrs : List ℕ) (n : ℕ)
    (hall : ∀ x ∈ sortedAddrs, n ≤ x) (b : ℕ) (hb : b < n) :
    hread (hPhaseTop5 config h sortedAddrs) b = hread h b := by
  simp only [hPhaseTop5]
  split
  · exact applyAll_preserves _ _ h n (fun x hx => hall x (List.take_subset 5 sortedAddrs hx)) b hb
  · rfl

/-- The exclusion pass preserves reads below `n`. -/
lemma hPhaseExclude_preserves (config : Config) (h : List WStock) (addrs : List ℕ) (n : ℕ)
    (hall : ∀ x ∈ addrs, n ≤ x) (b : ℕ) (hb : b < n) :
    hread (hPhaseExclude config h addrs) b = hread h b :=
  applyAll_preserves _ addrs h n hall b hb

/-- The weight-normalization pass preserves reads below `n`. -/
lemma hPhaseWeight_preserves (config : Config) (h : List WStock) (addrs : List ℕ) (n : ℕ)
    (hall : ∀ x ∈ addrs, n ≤ x) (b : ℕ) (hb : b < n) :
    hread (hPhaseWeight config h addrs) b = hread h b :=
  applyAll_preserves _ addrs h n hall b hb

/-- The rounding-residue write preserves reads below `n`. -/
lemma hPhaseAdjust_preserves (config : Config) (h : List WStock) (addrs : List ℕ) (n : ℕ)
    (hall : ∀ x ∈ addrs, n ≤ x) (b : ℕ) (hb : b < n) :
    hread (hPhaseAdjust config h addrs) b = hread h b := by
  cases addrs with
  | nil => rfl
  | cons a rest =>
    simp only [hPhaseAdjust]
    split
    · exact writeField_preserves _ h a b n (hall a (List.mem_cons_self a rest)) hb
    · rfl

set_option maxHeartbeats 2000000 in
/-- C10: position sizing never mutates the caller's stock objects.  In
the heap model every working-field write targets only the fresh shallow
copies allocated at addresses `≥ h.length`, so every pre-existing
object — in particular each stock of the `scoredStocks` argument that
`generateRecommendation` later reuses for the watchlist — reads back
unchanged after the call. -/
theorem position_sizing_never_mutates_input (h : List WStock) (addrs : List ℕ)
    (config : Config) (a : ℕ) (ha : a < h.length) :
    hread (calculatePortfolioWeightsHeap h addrs config).1 a = hread h a := by
  simp only [calculatePortfolioWeightsHeap]
  split
  · rfl
  · have hRange : ∀ (k x : ℕ), x ∈ List.range' h.length k → h.length ≤ x := by
      intro k x hx
      exact (List.mem_range'_1.mp hx).1
    have hSorted : ∀ (key : ℕ → ℚ) (k x : ℕ),
        x ∈ sortDescBy key (List.range' h.length k) → h.length ≤ x := by
      intro key k x hx
      exact hRange k x (mem_of_mem_sortDescBy hx)
    have hFilt : ∀ (p : ℕ → Bool) (key : ℕ → ℚ) (k x : ℕ),
        x ∈ (sortDescBy key (List.range' h.length k)).filter p → h.length ≤ x := by
      intro p key k x hx
      exact hSorted key k x (List.mem_of_mem_filter hx)
    refine (hPhaseAdjust_preserves config _ _ h.length (fun x hx => hFilt _ _ _ x hx) a ha).trans ?_
    refine (hPhaseWeight_preserves config _ _ h.length (fun x hx => hFilt _ _ _ x hx) a ha).trans ?_
    refine (hPhaseExclude_preserves config _ _ h.length (fun x hx => hSorted _ _ x hx) a ha).trans ?_
    refine (hPhaseTop5_preserves config _ _ h.length (fun x hx => hSorted _ _ x hx) a ha).trans ?_
    refine (hSectorLoop_preserves config 10 _ _ h.length (fun x hx => hRange _ x hx) a ha).trans ?_
    refine (hPhaseSector_preserves _ _ h.length (fun x hx => hRange _ x hx) a ha).trans ?_
    refine (hPhaseCap_preserves config _ _ h.length (fun x hx => hRange _ x hx) a ha).trans ?_
    refine (hPhaseRaw_preserves config _ _ h.length (fun x hx => hRange _ x hx) a ha).trans ?_
    refine (hPhaseConviction_preserves _ _ h.length (fun x hx => hRange _ x hx) a ha).trans ?_
    exact hread_append h _ a ha

/-- Witness for C10: a one-object store with an eligible stock; its cell
reads back unchanged after the engine runs on it. -/
theorem position_sizing_never_mutates_input_witness :
    0 < heapWitnessStore.length ∧
    hread (calculatePortfolioWeightsHeap heapWitnessStore [0] {}).1 0 = hread heapWitnessStore 0 :=
  ⟨by decide,
   position_sizing_never_mutates_input heapWitnessStore [0] {} 0 (by decide)⟩

end StockAdvisor
